import Mathlib

/-!
Verification of the DNSBunch DNS analysis engine
(`src/backend/dns_checker.py`) against its natural-language
specification.  The Python code is shallowly embedded: each checker
method becomes a pure Lean function whose network inputs (resolver
answers, directed UDP queries, library classification calls) are
passed in explicitly as data or as function-valued parameters, and
Python exceptions become `Except` / explicit outcome values.
-/

namespace DNSBunch

/-- The four-valued status every check result carries
(`pass`, `warning`, `error`, `info`). -/
inductive Status where
  | pass
  | warning
  | error
  | info
deriving DecidableEq, Repr

/-- Outcome of a single `resolver.resolve(...)` call: a successful
answer, an empty-style failure (`NXDOMAIN` / `NoAnswer`, which the
code catches in a dedicated branch where it does), or any other
exception with its message. -/
inductive Fetch (α : Type) where
  | ok (val : α)
  | noAnswer
  | fail (msg : String)
deriving DecidableEq, Repr

/-! ### Orchestrator (`run_all_checks`, lines 68-167)

At orchestrator level a check result is recorded with its status,
records payload and issues.  The only result `run_all_checks` itself
constructs is the fallback written when a checker raises; payloads of
successful checker results are irrelevant to the orchestrator, so the
`records` field is kept at `List String`. -/

/-- Orchestrator-level view of a check result. -/
structure CheckResult where
  status : Status
  records : List String
  issues : List String
deriving DecidableEq, Repr

/-- The fallback result stored by the `except Exception` handler in the
per-check loop: `{'status': 'error', 'records': [], 'issues':
["Check failed: " + str(e)]}` (lines 144-150). -/
def checkFailedResult (msg : String) : CheckResult :=
  { status := .error, records := [], issues := ["Check failed: " ++ msg] }

/-- `all_check_types` (lines 85-88), in declaration order. -/
def allCheckTypes : List String :=
  ["domain_status", "ns", "soa", "a", "aaaa", "mx", "spf", "txt", "cname",
   "ptr", "caa", "dmarc", "dkim", "glue", "dnssec", "axfr", "wildcard", "www"]

/-- `checks_to_run` (lines 90-98): a non-empty request is filtered to
the known check types, keeping the request's own order; an empty (or
absent) request means all checks. -/
def checksToRun (requested : List String) : List String :=
  if requested.isEmpty then allCheckTypes
  else requested.filter (fun c => allCheckTypes.contains c)

/-- Result of invoking the checker method dispatched for `name` in the
per-check loop (lines 101-141).  Every branch calls a method that
exists, except `wildcard`: the source calls
`self._check_wildcard_records()` (line 138), and no method of that
name is defined anywhere in the class (the implemented checker is
`_check_wildcard`), so Python raises an `AttributeError` that the
surrounding handler converts like any other checker failure.  Checker
behaviour for the other names is abstracted as `impl`. -/
def dispatchCheck (impl : String → Except String CheckResult)
    (name : String) : Except String CheckResult :=
  if name = "wildcard" then
    .error "'DNSChecker' object has no attribute '_check_wildcard_records'"
  else impl name

/-- The value stored into `results['checks'][name]`: the checker's
result, or the fallback when it raised. -/
def resultOf (impl : String → Except String CheckResult)
    (name : String) : CheckResult :=
  match dispatchCheck impl name with
  | .ok r => r
  | .error msg => checkFailedResult msg

/-- Python-dict assignment `results['checks'][k] = v`: overwrite in
place when the key exists, append otherwise (insertion order
preserved). -/
def insertCheck : List (String × CheckResult) → String → CheckResult →
    List (String × CheckResult)
  | [], k, v => [(k, v)]
  | p :: rest, k, v =>
    if p.1 = k then (k, v) :: rest else p :: insertCheck rest k v

/-- Association-list lookup mirroring `results['checks'][name]`. -/
def lookupCheck : List (String × CheckResult) → String → Option CheckResult
  | [], _ => none
  | p :: rest, k => if p.1 = k then some p.2 else lookupCheck rest k

/-- The per-check loop (lines 101-150): each name in `names` runs its
checker and stores the result (or the failure fallback) under its key. -/
def runChecks (impl : String → Except String CheckResult)
    (names : List String) (acc : List (String × CheckResult)) :
    List (String × CheckResult) :=
  names.foldl (fun acc name => insertCheck acc name (resultOf impl name)) acc

/-- The summary counters (lines 75-81 and 152-164). -/
structure Summary where
  total : Nat
  passed : Nat
  warnings : Nat
  errors : Nat
  info : Nat
deriving DecidableEq, Repr

/-- The summary loop (lines 152-164): for every entry of the checks
mapping, `total` is incremented and the counter matching the entry's
status is incremented.  Every result stored in the mapping carries one
of the four statuses, so the `.get('status', 'error')` default never
fires and each entry lands in exactly one counter. -/
def computeSummary (checks : List (String × CheckResult)) : Summary :=
  checks.foldl
    (fun s c =>
      let s := { s with total := s.total + 1 }
      match c.2.status with
      | .pass => { s with passed := s.passed + 1 }
      | .warning => { s with warnings := s.warnings + 1 }
      | .error => { s with errors := s.errors + 1 }
      | .info => { s with info := s.info + 1 })
    { total := 0, passed := 0, warnings := 0, errors := 0, info := 0 }

/-- The report assembled by `run_all_checks`. -/
structure Report where
  checks : List (String × CheckResult)
  summary : Summary
deriving DecidableEq, Repr

/-- `run_all_checks` (lines 68-167): run the requested checks in the
order produced by `checksToRun`, then compute the summary. -/
def run_all_checks (impl : String → Except String CheckResult)
    (requested : List String) : Report :=
  let checks := runChecks impl (checksToRun requested) []
  { checks := checks, summary := computeSummary checks }

/-! ### C1: summary counters partition the checks mapping -/

/-- Auxiliary: unfolding one step of the summary fold. -/
lemma computeSummary_go (init : Summary) (l : List (String × CheckResult)) :
    l.foldl
      (fun s c =>
        let s := { s with total := s.total + 1 }
        match c.2.status with
        | .pass => { s with passed := s.passed + 1 }
        | .warning => { s with warnings := s.warnings + 1 }
        | .error => { s with errors := s.errors + 1 }
        | .info => { s with info := s.info + 1 })
      init =
    { total := init.total + l.length,
      passed := init.passed + l.countP (fun c => c.2.status = .pass),
      warnings := init.warnings + l.countP (fun c => c.2.status = .warning),
      errors := init.errors + l.countP (fun c => c.2.status = .error),
      info := init.info + l.countP (fun c => c.2.status = .info) } := by
  induction l generalizing init with
  | nil => simp
  | cons hd tl ih =>
    simp only [List.foldl_cons, List.length_cons, List.countP_cons]
    rw [ih]
    cases h : hd.2.status <;> simp [h] <;> omega

/-- Counters of `computeSummary` are exactly the status counts. -/
lemma computeSummary_counts (checks : List (String × CheckResult)) :
    computeSummary checks =
      { total := checks.length,
        passed := checks.countP (fun c => c.2.status = .pass),
        warnings := checks.countP (fun c => c.2.status = .warning),
        errors := checks.countP (fun c => c.2.status = .error),
        info := checks.countP (fun c => c.2.status = .info) } := by
  unfold computeSummary
  rw [computeSummary_go]
  simp

/-- Each entry has exactly one of the four statuses, so the four
counts sum to the length. -/
lemma status_counts_sum (checks : List (String × CheckResult)) :
    checks.countP (fun c => c.2.status = .pass) +
    checks.countP (fun c => c.2.status = .warning) +
    checks.countP (fun c => c.2.status = .error) +
    checks.countP (fun c => c.2.status = .info) = checks.length := by
  induction checks with
  | nil => simp
  | cons hd tl ih =>
    simp only [List.countP_cons, List.length_cons]
    cases h : hd.2.status <;> simp [h] <;> omega

/-! ### Lookup lemmas for the checks mapping -/

/-- Looking up after a dict assignment: the assigned key reads the new
value, other keys are untouched. -/
lemma lookupCheck_insertCheck (m : List (String × CheckResult))
    (k : String) (v : CheckResult) (k' : String) :
    lookupCheck (insertCheck m k v) k' =
      if k' = k then some v else lookupCheck m k' := by
  induction m with
  | nil =>
    simp only [insertCheck, lookupCheck]
    by_cases h : k' = k
    · simp [h]
    · have h2 : ¬ k = k' := fun hh => h hh.symm
      simp [h, h2]
  | cons p rest ih =>
    simp only [insertCheck]
    by_cases hp : p.1 = k
    · simp only [hp, if_true, lookupCheck]
      by_cases h : k' = k
      · simp [h]
      · have h2 : ¬ k = k' := fun hh => h hh.symm
        have h3 : ¬ p.1 = k' := by rw [hp]; exact h2
        simp [h, h2, h3]
    · simp only [hp, if_false, lookupCheck, ih]
      by_cases hq : p.1 = k'
      · have h2 : ¬ k' = k := by rw [← hq]; exact fun hh => hp hh
        simp [hq, h2]
      · simp [hq]

/-- Unfolding the per-check loop. -/
lemma runChecks_cons (impl : String → Except String CheckResult)
    (n : String) (rest : List String) (acc : List (String × CheckResult)) :
    runChecks impl (n :: rest) acc =
      runChecks impl rest (insertCheck acc n (resultOf impl n)) := rfl

/-- After the loop, a key reads the result of its own checker if it was
among the processed names, and is untouched otherwise.  (The stored
value depends only on the key, so later duplicates rewrite the same
value.) -/
lemma lookupCheck_runChecks (impl : String → Except String CheckResult) :
    ∀ (names : List String) (acc : List (String × CheckResult)) (k : String),
      lookupCheck (runChecks impl names acc) k =
        if k ∈ names then some (resultOf impl k) else lookupCheck acc k := by
  intro names
  induction names with
  | nil => intro acc k; simp [runChecks]
  | cons n rest ih =>
    intro acc k
    rw [runChecks_cons, ih]
    by_cases hr : k ∈ rest
    · simp [hr]
    · by_cases hn : k = n
      · simp [hr, hn, lookupCheck_insertCheck]
      · simp [hr, hn, lookupCheck_insertCheck]

/-- A fresh-key assignment is an append. -/
lemma insertCheck_of_lookup_none (m : List (String × CheckResult))
    (k : String) (v : CheckResult) (h : lookupCheck m k = none) :
    insertCheck m k v = m ++ [(k, v)] := by
  induction m with
  | nil => rfl
  | cons p rest ih =>
    simp only [lookupCheck] at h
    by_cases hp : p.1 = k
    · simp [hp] at h
    · simp only [insertCheck, hp, if_false, List.cons_append, List.cons.injEq,
        true_and]
      exact ih (by simpa [hp] using h)

/-- Lookup distributes over append. -/
lemma lookupCheck_append (m m' : List (String × CheckResult)) (k : String) :
    lookupCheck (m ++ m') k =
      match lookupCheck m k with
      | some v => some v
      | none => lookupCheck m' k := by
  induction m with
  | nil => simp [lookupCheck]
  | cons p rest ih =>
    by_cases hp : p.1 = k
    · simp [lookupCheck, hp]
    · simp [lookupCheck, hp, ih]

/-- Keys of the checks mapping after the loop: when the processed names
are distinct and none is already present, they are appended in
processing order. -/
lemma keys_runChecks (impl : String → Except String CheckResult) :
    ∀ (names : List String) (acc : List (String × CheckResult)),
      names.Nodup → (∀ n ∈ names, lookupCheck acc n = none) →
      (runChecks impl names acc).map Prod.fst = acc.map Prod.fst ++ names := by
  intro names
  induction names with
  | nil => intro acc _ _; simp [runChecks]
  | cons n rest ih =>
    intro acc hnd habs
    have hn : lookupCheck acc n = none := habs n (by simp)
    rw [runChecks_cons, insertCheck_of_lookup_none acc n _ hn]
    have hrest : ∀ m ∈ rest, lookupCheck (acc ++ [(n, resultOf impl n)]) m = none := by
      intro m hm
      rw [lookupCheck_append]
      have h1 : lookupCheck acc m = none := habs m (by simp [hm])
      have h2 : m ≠ n := by
        intro hcon
        exact (List.nodup_cons.mp hnd).1 (hcon ▸ hm)
      have h3 : ¬ n = m := fun hh => h2 hh.symm
      simp [h1, lookupCheck, h3]
    rw [ih _ (List.nodup_cons.mp hnd).2 hrest]
    simp

/-- C1 (confirmed): for every report returned by `run_all_checks`,
`summary.total` equals the number of entries in the checks mapping,
and the four counters `passed`, `warnings`, `errors`, `info` sum to
`summary.total`, each check contributing to exactly one counter
according to its status. -/
theorem summary_partitions_checks
    (impl : String → Except String CheckResult) (requested : List String) :
    let report := run_all_checks impl requested
    report.summary.total = report.checks.length ∧
    report.summary.passed + report.summary.warnings +
      report.summary.errors + report.summary.info = report.summary.total ∧
    report.summary.passed =
      report.checks.countP (fun c => c.2.status = .pass) ∧
    report.summary.warnings =
      report.checks.countP (fun c => c.2.status = .warning) ∧
    report.summary.errors =
      report.checks.countP (fun c => c.2.status = .error) ∧
    report.summary.info =
      report.checks.countP (fun c => c.2.status = .info) := by
  intro report
  have hc : report.summary = computeSummary report.checks := rfl
  rw [hc, computeSummary_counts]
  refine ⟨rfl, ?_, rfl, rfl, rfl, rfl⟩
  simpa using status_counts_sum report.checks

/-! ### C2: a failing checker is absorbed, the other checks continue -/

/-- C2 (confirmed): when the checker dispatched for a requested check
raises, the orchestrator records the fallback `CheckResult`
`{status: error, records: [], issues: ["Check failed: " ++ msg]}` for
that check, and every requested check still gets its own recorded
result; `run_all_checks` is a total function, so no exception
propagates out of it. -/
theorem checker_failure_recorded
    (impl : String → Except String CheckResult) (requested : List String)
    (name msg : String)
    (h1 : name ∈ checksToRun requested)
    (h2 : dispatchCheck impl name = .error msg) :
    lookupCheck (run_all_checks impl requested).checks name
      = some (checkFailedResult msg) ∧
    ∀ n ∈ checksToRun requested,
      lookupCheck (run_all_checks impl requested).checks n
        = some (resultOf impl n) := by
  have hres : resultOf impl name = checkFailedResult msg := by
    simp [resultOf, h2]
  constructor
  · have := lookupCheck_runChecks impl (checksToRun requested) [] name
    simp only [run_all_checks]
    rw [this, if_pos h1, hres]
  · intro n hn
    have := lookupCheck_runChecks impl (checksToRun requested) [] n
    simp only [run_all_checks]
    rw [this, if_pos hn]

/-- Witness for C2 at a concrete failing checker. -/
theorem checker_failure_recorded_witness :
    lookupCheck
        (run_all_checks (fun _ => Except.error "boom") ["ns"]).checks "ns"
      = some (checkFailedResult "boom") ∧
    ∀ n ∈ checksToRun ["ns"],
      lookupCheck
          (run_all_checks (fun _ => Except.error "boom") ["ns"]).checks n
        = some (resultOf (fun _ => Except.error "boom") n) :=
  checker_failure_recorded (fun _ => Except.error "boom") ["ns"] "ns" "boom"
    (by decide) rfl

/-! ### C3: order of the checks mapping

The claim says the keys of `checks` follow the declaration order of
the canonical list regardless of the order of the requested names.
The code instead filters `requested_checks` keeping the request's own
order (line 93), so the keys follow the request order. -/

/-- Counterexample to C3: requesting `["mx", "ns"]` produces the keys
`["mx", "ns"]`, while the canonical declaration order of those two
checks is `["ns", "mx"]` (NS before MX). -/
theorem checks_canonical_order_counterexample :
    (run_all_checks (fun _ => Except.ok ⟨Status.pass, [], []⟩)
        ["mx", "ns"]).checks.map Prod.fst = ["mx", "ns"] ∧
    allCheckTypes.filter
        (fun c => (["mx", "ns"] : List String).contains c) = ["ns", "mx"] ∧
    (["mx", "ns"] : List String) ≠ ["ns", "mx"] := by
  refine ⟨by decide, by decide, by decide⟩

/-- C3 (corrected): for a duplicate-free requested list, the keys of
the checks mapping are exactly the requested names that are known
check types, in the order they occur in the request (for an empty
request, all checks run in the canonical declaration order). -/
theorem checks_follow_request_order
    (impl : String → Except String CheckResult) (requested : List String)
    (h : requested.Nodup) :
    (run_all_checks impl requested).checks.map Prod.fst
      = checksToRun requested := by
  have hnd : (checksToRun requested).Nodup := by
    unfold checksToRun
    by_cases he : requested.isEmpty
    · simp only [he, if_true]
      decide
    · simp only [he, if_false]
      exact h.filter _
  have := keys_runChecks impl (checksToRun requested) [] hnd
    (fun n _ => rfl)
  simpa [run_all_checks] using this

/-- Witness for C3's corrected statement. -/
theorem checks_follow_request_order_witness :
    (run_all_checks (fun _ => Except.ok ⟨Status.pass, [], []⟩)
        ["mx", "ns"]).checks.map Prod.fst = checksToRun ["mx", "ns"] :=
  checks_follow_request_order (fun _ => Except.ok ⟨Status.pass, [], []⟩)
    ["mx", "ns"] (by decide)

/-! ### C6, orchestrator half: the WILDCARD dispatch always fails

`run_all_checks` dispatches the `wildcard` check to
`self._check_wildcard_records()` (line 138), a method that does not
exist; the implemented checker `_check_wildcard` (lines 2246-2331) is
never called by the orchestrator.  The resulting `AttributeError` is
caught by the per-check handler, so the recorded wildcard result is
always the failure fallback, regardless of the domain's DNS data. -/

/-- C6 (code bug): whenever the wildcard check is requested, the
recorded result is the `AttributeError` fallback
`{status: error, records: [], issues: [...]}` — never the
`has_wildcard`/`warning` result the implemented checker would
produce. -/
theorem wildcard_check_always_attribute_error
    (impl : String → Except String CheckResult) (requested : List String)
    (h : "wildcard" ∈ checksToRun requested) :
    lookupCheck (run_all_checks impl requested).checks "wildcard"
      = some (checkFailedResult
          "'DNSChecker' object has no attribute '_check_wildcard_records'") := by
  have := lookupCheck_runChecks impl (checksToRun requested) [] "wildcard"
  simp only [run_all_checks]
  rw [this, if_pos h]
  rfl

/-- Witness for C6 with the wildcard check explicitly requested. -/
theorem wildcard_check_always_attribute_error_witness :
    lookupCheck
        (run_all_checks (fun _ => Except.ok ⟨Status.pass, [], []⟩)
          ["wildcard"]).checks "wildcard"
      = some (checkFailedResult
          "'DNSChecker' object has no attribute '_check_wildcard_records'") :=
  wildcard_check_always_attribute_error
    (fun _ => Except.ok ⟨Status.pass, [], []⟩) ["wildcard"] (by decide)

/-! ### SOA checker (`_check_soa_record`, lines 970-1125)

The four interval sub-checks (lines 1012-1101) depend only on the
fetched SOA values; `_check_soa_serial_consistency` issues further
network queries and its result enters the checker as the already
reduced sub-check. -/

/-- A sub-check entry of the SOA (and similar) checkers.  `issue` holds
the `'issue'` tag of the details dict (`too_low` / `too_high`) where
the source sets one. -/
structure SoaCheck where
  typ : String
  status : Status
  message : String
  issue : Option String
deriving DecidableEq, Repr

/-- The SOA field values (`soa_data`, lines 989-997). -/
structure SoaData where
  mname : String
  rname : String
  serial : Nat
  refresh : Nat
  retry : Nat
  expire : Nat
  minimum : Nat
deriving DecidableEq, Repr

/-- SOA REFRESH validation (lines 1012-1032): pass in [3600, 86400],
warning below, warning above. -/
def soa_refresh_check (refresh : Nat) : SoaCheck :=
  if 3600 ≤ refresh ∧ refresh ≤ 86400 then
    { typ := "soa_refresh", status := .pass,
      message := "Your SOA REFRESH interval is: " ++ toString refresh ++
        ". That is OK.", issue := none }
  else if refresh < 3600 then
    { typ := "soa_refresh", status := .warning,
      message := "Your SOA REFRESH interval is: " ++ toString refresh ++
        ". This is too low (recommended: 3600-86400).", issue := some "too_low" }
  else
    { typ := "soa_refresh", status := .warning,
      message := "Your SOA REFRESH interval is: " ++ toString refresh ++
        ". This is higher than recommended.", issue := some "too_high" }

/-- SOA RETRY validation (lines 1034-1055): pass in [1800, 7200],
warning below, warning above. -/
def soa_retry_check (retry : Nat) : SoaCheck :=
  if 1800 ≤ retry ∧ retry ≤ 7200 then
    { typ := "soa_retry", status := .pass,
      message := "Your SOA RETRY interval is: " ++ toString retry ++
        ". That is OK.", issue := none }
  else if retry < 1800 then
    { typ := "soa_retry", status := .warning,
      message := "Your SOA RETRY interval is: " ++ toString retry ++
        ". This is too low (recommended: 1800-7200).", issue := some "too_low" }
  else
    { typ := "soa_retry", status := .warning,
      message := "Your SOA RETRY interval is: " ++ toString retry ++
        ". This is higher than recommended.", issue := some "too_high" }

/-- SOA EXPIRE validation (lines 1057-1078): pass in [604800, 2419200],
warning below — but the branch for values above 2419200 returns
`pass` ("That is OK"), not warning. -/
def soa_expire_check (expire : Nat) : SoaCheck :=
  if 604800 ≤ expire ∧ expire ≤ 2419200 then
    { typ := "soa_expire", status := .pass,
      message := "Your SOA EXPIRE time is: " ++ toString expire ++
        ". That is OK.", issue := none }
  else if expire < 604800 then
    { typ := "soa_expire", status := .warning,
      message := "Your SOA EXPIRE time is: " ++ toString expire ++
        ". This is too low (recommended: at least 604800 - 1 week).",
      issue := some "too_low" }
  else
    { typ := "soa_expire", status := .pass,
      message := "Your SOA EXPIRE time is: " ++ toString expire ++
        ". That is OK.", issue := none }

/-- SOA MINIMUM validation (lines 1080-1101): pass in [300, 86400],
warning below, warning above. -/
def soa_minimum_check (minimum : Nat) : SoaCheck :=
  if 300 ≤ minimum ∧ minimum ≤ 86400 then
    { typ := "soa_minimum", status := .pass,
      message := "Your SOA MINIMUM (default TTL) is: " ++ toString minimum ++
        ". That is OK.", issue := none }
  else if minimum < 300 then
    { typ := "soa_minimum", status := .warning,
      message := "Your SOA MINIMUM is: " ++ toString minimum ++
        ". This is too low (recommended: 300-86400).", issue := some "too_low" }
  else
    { typ := "soa_minimum", status := .warning,
      message := "Your SOA MINIMUM is: " ++ toString minimum ++
        ". This is higher than recommended.", issue := some "too_high" }

/-- The SOA checker's result. -/
structure SoaResult where
  status : Status
  record : Option SoaData
  checks : List SoaCheck
deriving DecidableEq, Repr

/-- An all-error SOA result carrying a single `soa_record` sub-check,
as built by the `len(answers) != 1` branch (lines 976-986) and by the
exception fallback (lines 1114-1125). -/
def soaErrorResult (msg : String) : SoaResult :=
  { status := .error
    record := none
    checks := [{ typ := "soa_record", status := .error, message := msg,
                 issue := none }] }

/-- `_check_soa_record` (lines 970-1125) on a fetched answer:
`answers` is the outcome of the SOA query and `serialCheck` the
already reduced `_check_soa_serial_consistency` sub-check (it performs
its own network queries, lines 1127-1182).  Exactly one SOA answer is
required; the sub-checks are then emitted in source order and the
overall status is error if any sub-check errs, else warning if any
warns, else pass. -/
def check_soa_record (answers : Fetch (List SoaData))
    (serialCheck : SoaCheck) : SoaResult :=
  match answers with
  | .ok [soa] =>
    let checks :=
      [{ typ := "soa_record", status := .info, message := "SOA record found",
         issue := none },
       serialCheck,
       soa_refresh_check soa.refresh,
       soa_retry_check soa.retry,
       soa_expire_check soa.expire,
       soa_minimum_check soa.minimum]
    let overall :=
      if checks.any (fun c => c.status = .error) then Status.error
      else if checks.any (fun c => c.status = .warning) then Status.warning
      else Status.pass
    { status := overall, record := some soa, checks := checks }
  | .ok l =>
    soaErrorResult ("ERROR: Expected 1 SOA record, found " ++ toString l.length)
  | .noAnswer => soaErrorResult "Failed to query SOA record"
  | .fail msg => soaErrorResult ("Failed to query SOA record: " ++ msg)

/-! ### C4: the four SOA interval sub-checks -/

/-- Counterexample to C4: an SOA EXPIRE of 2419201 lies outside the
range [604800, 2419200], yet the sub-check's status is `pass`, not the
`warning` the claim requires for out-of-range values. -/
theorem soa_expire_above_range_counterexample :
    (soa_expire_check 2419201).status = Status.pass ∧
    ¬ (2419201 ≤ 2419200) ∧
    (soa_expire_check 2419201).status ≠ Status.warning := by
  refine ⟨by decide, by decide, by decide⟩

/-- C4 (corrected): refresh, retry and minimum sub-checks pass exactly
inside their ranges and warn outside on either side; the expire
sub-check passes inside [604800, 2419200], warns below 604800, and
also passes (rather than warning) above 2419200. -/
theorem soa_interval_checks_statuses (v : Nat) :
    (soa_refresh_check v).status =
      (if 3600 ≤ v ∧ v ≤ 86400 then Status.pass else Status.warning) ∧
    (soa_retry_check v).status =
      (if 1800 ≤ v ∧ v ≤ 7200 then Status.pass else Status.warning) ∧
    (soa_expire_check v).status =
      (if 604800 ≤ v then Status.pass else Status.warning) ∧
    (soa_minimum_check v).status =
      (if 300 ≤ v ∧ v ≤ 86400 then Status.pass else Status.warning) := by
  refine ⟨?_, ?_, ?_, ?_⟩
  · unfold soa_refresh_check
    split_ifs <;> rfl
  · unfold soa_retry_check
    split_ifs <;> rfl
  · unfold soa_expire_check
    split_ifs <;> first | rfl | omega
  · unfold soa_minimum_check
    split_ifs <;> rfl

/-! ### CNAME checker (`_check_cname_records`, lines 1747-1809)

`_check_cname_for_host` takes the CNAME answer for the host and two
flags saying whether the target's A (resp. AAAA) lookup succeeded;
`_check_cname_records` combines the five fixed subdomains with the
apex CNAME probe. -/

/-- Result of `_check_cname_for_host` (lines 1771-1809). -/
structure CnameHostResult where
  status : Status
  target : String
  resolves : Bool
  issues : List String
deriving DecidableEq, Repr

/-- `_check_cname_for_host`: a CNAME answer takes its first target and
tests whether it resolves to A or, failing that, AAAA;
`NXDOMAIN`/`NoAnswer` yields `info`; any other exception yields
`error`.  (An empty answer list would make `answers[0]` raise
`IndexError`, landing in the generic handler.) -/
def check_cname_for_host (hostname : String) (cnameOut : Fetch (List String))
    (aResolves aaaaResolves : String → Bool) : CnameHostResult :=
  match cnameOut with
  | .ok (t :: _) =>
    let resolves := aResolves t || aaaaResolves t
    if resolves then
      { status := .pass, target := t, resolves := true, issues := [] }
    else
      { status := .warning, target := t, resolves := false,
        issues := ["CNAME target " ++ t ++ " does not resolve"] }
  | .ok [] =>
    { status := .error, target := "", resolves := false,
      issues := ["Failed to query CNAME for " ++ hostname ++
        ": list index out of range"] }
  | .noAnswer =>
    { status := .info, target := "", resolves := false, issues := [] }
  | .fail msg =>
    { status := .error, target := "", resolves := false,
      issues := ["Failed to query CNAME for " ++ hostname ++ ": " ++ msg] }

/-- The fixed subdomain list of `_check_cname_records` (line 1749). -/
def cname_subdomains : List String := ["www", "mail", "ftp", "blog", "shop"]

/-- Result of `_check_cname_records`. -/
structure CnameResult where
  status : Status
  records : List (String × CnameHostResult)
  issues : List String
deriving DecidableEq, Repr

/-- `_check_cname_records` (lines 1747-1769): check the five fixed
subdomains, then probe the apex for a CNAME; a non-empty apex answer
appends the "not allowed" issue (any exception there is swallowed).
The returned status is the literal `'pass'` in the source, regardless
of the sub-results and of the apex probe. -/
def check_cname_records (domain : String)
    (cnameOf : String → Fetch (List String))
    (aResolves aaaaResolves : String → Bool)
    (apexCname : Fetch (List String)) : CnameResult :=
  let results := cname_subdomains.map (fun sub =>
    (sub, check_cname_for_host (sub ++ "." ++ domain)
      (cnameOf (sub ++ "." ++ domain)) aResolves aaaaResolves))
  let issues :=
    match apexCname with
    | .ok (_ :: _) => ["CNAME record found at zone apex (not allowed)"]
    | _ => []
  { status := .pass, records := results, issues := issues }

/-! ### C5: CNAME at the zone apex -/

/-- C5 (code bug): the CNAME checker's top-level status is the literal
`pass` for every input; in particular, for a domain whose apex holds a
CNAME the checker records the "not allowed" issue yet still reports
`pass`, not the `error` the claim (and RFC 1912) requires. -/
theorem cname_apex_status_stays_pass :
    (∀ (domain : String) (cnameOf : String → Fetch (List String))
      (aResolves aaaaResolves : String → Bool)
      (apexCname : Fetch (List String)),
      (check_cname_records domain cnameOf aResolves aaaaResolves
        apexCname).status = Status.pass) ∧
    (check_cname_records "example.com" (fun _ => Fetch.noAnswer)
        (fun _ => false) (fun _ => false)
        (Fetch.ok ["cdn.example.net"])).issues
      = ["CNAME record found at zone apex (not allowed)"] ∧
    (check_cname_records "example.com" (fun _ => Fetch.noAnswer)
        (fun _ => false) (fun _ => false)
        (Fetch.ok ["cdn.example.net"])).status ≠ Status.error := by
  refine ⟨fun _ _ _ _ _ => rfl, rfl, by decide⟩

/-! ### WILDCARD checker (`_check_wildcard`, lines 2246-2331)

This is the implemented wildcard checker that `run_all_checks` fails
to reach (see C6 above).  Each probe's `resolve` outcome is `some
answers` on success and `none` on any exception; a successful but
empty answer is falsy in the source, so it appends no test entry. -/

/-- The four probed subdomains (lines 2253-2258). -/
def wildcard_test_subdomains (domain : String) : List String :=
  ["randomtest123." ++ domain, "nonexistent-subdomain." ++ domain,
   "*." ++ domain, "test-wildcard." ++ domain]

/-- One entry of the `wildcard_tests` list. -/
structure WildcardTest where
  subdomain : String
  typ : String
  has_record : Bool
  value : Option String
deriving DecidableEq, Repr

/-- Result of `_check_wildcard`. -/
structure WildcardResult where
  status : Status
  records : List WildcardTest
  has_wildcard : Bool
  issues : List String
deriving DecidableEq, Repr

/-- One record-type probe of one subdomain (lines 2264-2300): an
answered query appends a `has_record := true` entry and sets the found
flag; an exception appends a `has_record := false` entry; a truthy
check on an empty answer appends nothing. -/
def wildcardProbe (typ : String) (s : String) (res : Option (List String)) :
    List WildcardTest × Bool :=
  match res with
  | some (v :: _) => ([{ subdomain := s, typ := typ, has_record := true,
                         value := some v }], true)
  | some [] => ([], false)
  | none => ([{ subdomain := s, typ := typ, has_record := false,
                value := none }], false)

/-- `_check_wildcard` (lines 2246-2331): probe each test subdomain for
A and AAAA; any answer sets `has_wildcard` and the warning status. -/
def check_wildcard (domain : String)
    (aOf aaaaOf : String → Option (List String)) : WildcardResult :=
  let step := fun (acc : List WildcardTest × Bool) (s : String) =>
    let pa := wildcardProbe "A" s (aOf s)
    let pq := wildcardProbe "AAAA" s (aaaaOf s)
    (acc.1 ++ pa.1 ++ pq.1, acc.2 || pa.2 || pq.2)
  let r := (wildcard_test_subdomains domain).foldl step ([], false)
  if r.2 then
    { status := .warning, records := r.1, has_wildcard := true,
      issues := ["Wildcard DNS records detected. This means any subdomain will resolve.",
                 "This can be useful for catch-all setups but may have security implications."] }
  else
    { status := .pass, records := r.1, has_wildcard := false,
      issues := ["No wildcard DNS records detected."] }

/-- A probe resolved if its A or AAAA query returned a non-empty
answer. -/
def wildcardResolved (aOf aaaaOf : String → Option (List String))
    (s : String) : Bool :=
  (wildcardProbe "A" s (aOf s)).2 || (wildcardProbe "AAAA" s (aaaaOf s)).2

/-- The found flag accumulated by the probe loop is the disjunction of
the per-subdomain outcomes. -/
lemma check_wildcard_found_flag
    (aOf aaaaOf : String → Option (List String)) :
    ∀ (l : List String) (acc : List WildcardTest × Bool),
      (l.foldl (fun (acc : List WildcardTest × Bool) (s : String) =>
        let pa := wildcardProbe "A" s (aOf s)
        let pq := wildcardProbe "AAAA" s (aaaaOf s)
        (acc.1 ++ pa.1 ++ pq.1, acc.2 || pa.2 || pq.2)) acc).2
      = (acc.2 || l.any (wildcardResolved aOf aaaaOf)) := by
  intro l
  induction l with
  | nil => intro acc; simp
  | cons s rest ih =>
    intro acc
    simp only [List.foldl_cons, List.any_cons, ih, wildcardResolved]
    cases acc.2 <;> simp [Bool.or_assoc]

/-- The implemented `_check_wildcard` does satisfy the claimed
behaviour: if some probed subdomain resolves to an A or AAAA answer,
the result has `has_wildcard = true` and status `warning`.  The
orchestrator never reaches this function (see
`wildcard_check_always_attribute_error`). -/
lemma check_wildcard_detects (domain : String)
    (aOf aaaaOf : String → Option (List String))
    (h : ∃ s ∈ wildcard_test_subdomains domain,
      wildcardResolved aOf aaaaOf s = true) :
    (check_wildcard domain aOf aaaaOf).has_wildcard = true ∧
    (check_wildcard domain aOf aaaaOf).status = Status.warning := by
  have hany : (wildcard_test_subdomains domain).any
      (wildcardResolved aOf aaaaOf) = true := by
    rcases h with ⟨s, hs, hr⟩
    exact List.any_eq_true.mpr ⟨s, hs, hr⟩
  unfold check_wildcard
  dsimp only
  rw [check_wildcard_found_flag aOf aaaaOf _ ([], false)]
  simp [hany]

/-! ### NS checker: the `all_records` union (lines 264-289)

`_check_ns_records` builds `all_records` by first listing every parent
delegation hostname with source `"parent"`, then appending each
domain-query hostname whose host is not already present, with source
`"domain"`.  The hostname lists come from dnspython RRset iteration:
within an RRset the rdatas are distinct, so the parent hostname list
carries no duplicates; that is the `Nodup` hypothesis below. -/

/-- One entry of `all_records`. -/
structure NsRecord where
  host : String
  ips : List String
  ttl : Option Nat
  source : String
deriving DecidableEq, Repr

/-- The record built for a parent delegation hostname (lines 268-276). -/
def parentNsRecord (parentIps : String → List String) (parentTtl : Option Nat)
    (ns : String) : NsRecord :=
  { host := ns, ips := parentIps ns, ttl := parentTtl, source := "parent" }

/-- The record built for a domain-query hostname (lines 282-289). -/
def domainNsRecord (domainIps : String → List String) (domainTtl : Option Nat)
    (ns : String) : NsRecord :=
  { host := ns, ips := domainIps ns, ttl := domainTtl, source := "domain" }

/-- One step of the domain-records loop (lines 279-289): append the
hostname as a `"domain"` record unless some record already carries
that host. -/
def addDomainNs (domainIps : String → List String) (domainTtl : Option Nat)
    (acc : List NsRecord) (ns : String) : List NsRecord :=
  if acc.any (fun r => r.host = ns) then acc
  else acc ++ [domainNsRecord domainIps domainTtl ns]

/-- `all_records` (lines 264-289): parent records first, then the
deduplicated domain records. -/
def build_all_records (parentRecords : List String)
    (parentIps : String → List String) (parentTtl : Option Nat)
    (domainRecords : List String)
    (domainIps : String → List String) (domainTtl : Option Nat) :
    List NsRecord :=
  domainRecords.foldl (addDomainNs domainIps domainTtl)
    (parentRecords.map (parentNsRecord parentIps parentTtl))

/-- The domain loop only appends. -/
lemma foldl_addDomainNs_append (domainIps : String → List String)
    (domainTtl : Option Nat) :
    ∀ (l : List String) (acc : List NsRecord),
      ∃ t, l.foldl (addDomainNs domainIps domainTtl) acc = acc ++ t := by
  intro l
  induction l with
  | nil => intro acc; exact ⟨[], by simp⟩
  | cons x rest ih =>
    intro acc
    simp only [List.foldl_cons]
    by_cases hx : acc.any (fun r => r.host = x)
    · have hstep : addDomainNs domainIps domainTtl acc x = acc := by
        simp [addDomainNs, hx]
      rw [hstep]
      exact ih acc
    · have hstep : addDomainNs domainIps domainTtl acc x
          = acc ++ [domainNsRecord domainIps domainTtl x] := by
        simp [addDomainNs, hx]
      rw [hstep]
      rcases ih (acc ++ [domainNsRecord domainIps domainTtl x]) with ⟨t, ht⟩
      exact ⟨domainNsRecord domainIps domainTtl x :: t, by simp [ht]⟩

/-- The domain loop preserves distinctness of hosts. -/
lemma foldl_addDomainNs_nodup (domainIps : String → List String)
    (domainTtl : Option Nat) :
    ∀ (l : List String) (acc : List NsRecord),
      (acc.map NsRecord.host).Nodup →
      ((l.foldl (addDomainNs domainIps domainTtl) acc).map
        NsRecord.host).Nodup := by
  intro l
  induction l with
  | nil => intro acc h; simpa using h
  | cons x rest ih =>
    intro acc h
    simp only [List.foldl_cons]
    by_cases hx : acc.any (fun r => r.host = x)
    · have hstep : addDomainNs domainIps domainTtl acc x = acc := by
        simp [addDomainNs, hx]
      rw [hstep]
      exact ih acc h
    · have hstep : addDomainNs domainIps domainTtl acc x
          = acc ++ [domainNsRecord domainIps domainTtl x] := by
        simp [addDomainNs, hx]
      rw [hstep]
      have hnotin : x ∉ acc.map NsRecord.host := by
        intro hmem
        rcases List.mem_map.mp hmem with ⟨r, hr, hhost⟩
        exact hx (List.any_eq_true.mpr ⟨r, hr, by simp [hhost]⟩)
      have hnd2 : ((acc ++ [domainNsRecord domainIps domainTtl x]).map
          NsRecord.host).Nodup := by
        simp only [List.map_append, List.map_cons, List.map_nil]
        rw [List.nodup_append]
        refine ⟨h, by simp, ?_⟩
        intro a ha
        simp only [domainNsRecord, List.mem_cons, List.not_mem_nil, or_false]
        intro hax
        exact hnotin (hax ▸ ha)
      exact ih _ hnd2

/-- A host already present when the domain loop starts keeps exactly
its existing records: the loop never appends a record for it. -/
lemma foldl_addDomainNs_frozen (domainIps : String → List String)
    (domainTtl : Option Nat) :
    ∀ (l : List String) (acc : List NsRecord) (m : String),
      m ∈ acc.map NsRecord.host →
      ∀ r ∈ l.foldl (addDomainNs domainIps domainTtl) acc,
        r.host = m → r ∈ acc := by
  intro l
  induction l with
  | nil => intro acc m _ r hr _; simpa using hr
  | cons x rest ih =>
    intro acc m hm r hr hrm
    simp only [List.foldl_cons] at hr
    by_cases hx : acc.any (fun r => r.host = x)
    · have hstep : addDomainNs domainIps domainTtl acc x = acc := by
        simp [addDomainNs, hx]
      rw [hstep] at hr
      exact ih acc m hm r hr hrm
    · have hstep : addDomainNs domainIps domainTtl acc x
          = acc ++ [domainNsRecord domainIps domainTtl x] := by
        simp [addDomainNs, hx]
      rw [hstep] at hr
      have hm2 : m ∈ (acc ++ [domainNsRecord domainIps domainTtl x]).map
          NsRecord.host := by
        simp only [List.map_append]
        exact List.mem_append_left _ hm
      have := ih _ m hm2 r hr hrm
      rcases List.mem_append.mp this with h1 | h2
      · exact h1
      · exfalso
        simp only [List.mem_singleton] at h2
        have hxm : x = m := by rw [← hrm, h2]; rfl
        apply hx
        rcases List.mem_map.mp hm with ⟨r0, hr0, hh0⟩
        exact List.any_eq_true.mpr ⟨r0, hr0, by simp [hh0, hxm]⟩

/-- Counting records with a given host equals counting that host among
the mapped hosts. -/
lemma countP_host_eq_count_map (ns : String) :
    ∀ l : List NsRecord,
      l.countP (fun r => r.host = ns) = (l.map NsRecord.host).count ns := by
  intro l
  induction l with
  | nil => rfl
  | cons r rest ih =>
    simp only [List.countP_cons, List.map_cons, List.count_cons, ih]
    by_cases h : r.host = ns
    · simp [h]
    · have h2 : ¬ ns = r.host := fun hh => h hh.symm
      simp [h, h2]

/-- C7 (confirmed): given that the parent delegation hostname list is
duplicate-free (dnspython RRsets hold distinct rdatas), `all_records`
contains no two entries with the same host; and a hostname obtained
both from the TLD authority section and from the recursive NS lookup
appears exactly once, with source `"parent"`. -/
theorem ns_records_unique_hosts_parent_wins
    (parentRecords domainRecords : List String)
    (parentIps domainIps : String → List String)
    (parentTtl domainTtl : Option Nat) (ns : String)
    (hp : parentRecords.Nodup)
    (h1 : ns ∈ parentRecords) (_h2 : ns ∈ domainRecords) :
    (((build_all_records parentRecords parentIps parentTtl
        domainRecords domainIps domainTtl).map NsRecord.host).Nodup) ∧
    (build_all_records parentRecords parentIps parentTtl
        domainRecords domainIps domainTtl).countP
      (fun r => r.host = ns) = 1 ∧
    (∀ r ∈ build_all_records parentRecords parentIps parentTtl
        domainRecords domainIps domainTtl,
      r.host = ns → r.source = "parent") := by
  set all := build_all_records parentRecords parentIps parentTtl
    domainRecords domainIps domainTtl with hall
  have hbase : ((parentRecords.map (parentNsRecord parentIps parentTtl)).map
      NsRecord.host).Nodup := by
    rw [List.map_map]
    have : (NsRecord.host ∘ parentNsRecord parentIps parentTtl) = id := by
      funext a; rfl
    rw [this, List.map_id]
    exact hp
  have hnodup : (all.map NsRecord.host).Nodup :=
    foldl_addDomainNs_nodup domainIps domainTtl domainRecords _ hbase
  have hparent_mem : parentNsRecord parentIps parentTtl ns ∈
      parentRecords.map (parentNsRecord parentIps parentTtl) :=
    List.mem_map.mpr ⟨ns, h1, rfl⟩
  have hmem : parentNsRecord parentIps parentTtl ns ∈ all := by
    rcases foldl_addDomainNs_append domainIps domainTtl domainRecords
      (parentRecords.map (parentNsRecord parentIps parentTtl)) with ⟨t, ht⟩
    show _ ∈ build_all_records parentRecords parentIps parentTtl
      domainRecords domainIps domainTtl
    unfold build_all_records
    rw [ht]
    exact List.mem_append_left _ hparent_mem
  have hhost_mem : ns ∈ all.map NsRecord.host :=
    List.mem_map.mpr ⟨parentNsRecord parentIps parentTtl ns, hmem, rfl⟩
  refine ⟨hnodup, ?_, ?_⟩
  · rw [countP_host_eq_count_map]
    have hle := List.nodup_iff_count_le_one.mp hnodup ns
    have hge := List.count_pos_iff.mpr hhost_mem
    omega
  · intro r hr hrns
    have hm : ns ∈ (parentRecords.map
        (parentNsRecord parentIps parentTtl)).map NsRecord.host := by
      rw [List.map_map]
      exact List.mem_map.mpr ⟨ns, h1, rfl⟩
    have := foldl_addDomainNs_frozen domainIps domainTtl domainRecords _
      ns hm r hr hrns
    rcases List.mem_map.mp this with ⟨a, _, ha⟩
    rw [← ha]
    rfl

/-- Witness for C7 on concrete parent/domain hostname lists sharing
one name. -/
theorem ns_records_unique_hosts_parent_wins_witness :
    (((build_all_records ["ns1.example.com", "ns2.example.com"]
        (fun _ => []) none ["ns2.example.com", "ns3.example.com"]
        (fun _ => []) none).map NsRecord.host).Nodup) ∧
    (build_all_records ["ns1.example.com", "ns2.example.com"]
        (fun _ => []) none ["ns2.example.com", "ns3.example.com"]
        (fun _ => []) none).countP
      (fun r => r.host = "ns2.example.com") = 1 ∧
    (∀ r ∈ build_all_records ["ns1.example.com", "ns2.example.com"]
        (fun _ => []) none ["ns2.example.com", "ns3.example.com"]
        (fun _ => []) none,
      r.host = "ns2.example.com" → r.source = "parent") :=
  ns_records_unique_hosts_parent_wins
    ["ns1.example.com", "ns2.example.com"]
    ["ns2.example.com", "ns3.example.com"]
    (fun _ => []) (fun _ => []) none none "ns2.example.com"
    (by decide) (by decide) (by decide)

/-! ### MX checker (`_check_mx_records`, lines 1315-1607)

The fetched MX answer is a list of (exchange, preference) pairs; the
per-exchange A/AAAA resolutions, the per-exchange CNAME probes and the
PTR lookups enter as resolver functions returning `some answers` on
success and `none` on any exception. -/

/-- Helper for `pySplit`: walk the characters, cutting at each
separator. -/
def pySplitAux (sep : Char) : List Char → List Char → List String
  | [], acc => [String.mk acc.reverse]
  | c :: rest, acc =>
    if c = sep then String.mk acc.reverse :: pySplitAux sep rest []
    else pySplitAux sep rest (c :: acc)

/-- Python `s.split(sep)` for a one-character separator: split at every
occurrence, keeping empty chunks (`"".split('.') == ['']`). -/
def pySplit (sep : Char) (s : String) : List String :=
  pySplitAux sep s.toList []

/-- One resolved IP of an MX exchange. -/
structure MxIp where
  typ : String
  ip : String
deriving DecidableEq, Repr

/-- One entry of `mx_records` (lines 1322-1354). -/
structure MxRec where
  host : String
  priority : Nat
  ips : List MxIp
  err : Option String
deriving DecidableEq, Repr

/-- A sub-check of the MX checker. -/
structure MxCheck where
  typ : String
  status : Status
  message : String
deriving DecidableEq, Repr

/-- Building one `mx_info` dict (lines 1322-1354): resolve the exchange
to A then AAAA IPs (exceptions yield none of that family), and set the
error marker when no IP was found. -/
def buildMxRecord (aOf aaaaOf : String → Option (List String))
    (e : String × Nat) : MxRec :=
  let ipsA :=
    match aOf e.1 with
    | some l => l.map (fun ip => MxIp.mk "A" ip)
    | none => []
  let ipsQ :=
    match aaaaOf e.1 with
    | some l => l.map (fun ip => MxIp.mk "AAAA" ip)
    | none => []
  let ips := ipsA ++ ipsQ
  { host := e.1, priority := e.2, ips := ips,
    err := if ips.isEmpty then some "Does not resolve to any IP" else none }

/-- The sort key of line 1357: ascending `priority`. -/
def mxLe (a b : MxRec) : Prop := a.priority ≤ b.priority

instance : DecidableRel mxLe := fun a b => Nat.decLe a.priority b.priority

instance : IsTotal MxRec mxLe := ⟨fun a b => Nat.le_total a.priority b.priority⟩

instance : IsTrans MxRec mxLe := ⟨fun _ _ _ h1 h2 => Nat.le_trans h1 h2⟩

/-- `mx_records.sort(key=lambda x: x['priority'])` (line 1357): a
stable sort by priority; any correct sort gives the sortedness and
permutation facts the claims use. -/
def sortMxRecords (l : List MxRec) : List MxRec := List.insertionSort mxLe l

/-- Check 1 (lines 1359-1373): informational dump of the MX records. -/
def mxRecordsCheck : MxCheck :=
  { typ := "mx_records", status := .info,
    message := "Your MX records that were reported by your nameservers are:" }

/-- Check 2 (lines 1375-1394): exchanges whose resolution failed. -/
def mxNameValidityCheck (recs : List MxRec) : MxCheck :=
  let invalid := recs.filterMap (fun mx =>
    match mx.err with
    | some e => some (mx.host ++ " (" ++ e ++ ")")
    | none => none)
  if invalid.isEmpty then
    { typ := "mx_name_validity", status := .pass,
      message := "Good. All MX records resolve to IP addresses." }
  else
    { typ := "mx_name_validity", status := .error,
      message := "ERROR: Some MX records have issues: " ++
        String.intercalate ", " invalid }

/-- Check 3 (lines 1396-1411): MX count; note there is no branch for
zero records, so no sub-check is emitted then. -/
def mxCountChecks (recs : List MxRec) : List MxCheck :=
  if recs.length ≥ 2 then
    [{ typ := "mx_count", status := .pass,
       message := "Good. You have " ++ toString recs.length ++
         " MX records. This is good for redundancy." }]
  else if recs.length = 1 then
    [{ typ := "mx_count", status := .warning,
       message := "You have only 1 MX record. Consider adding a backup MX for redundancy." }]
  else []

/-- Check 4 (lines 1413-1436): exchanges that answer a CNAME query. -/
def mxCnameCheck (cnameOf : String → Option (List String))
    (recs : List MxRec) : MxCheck :=
  let issues := recs.filterMap (fun mx =>
    match cnameOf mx.host with
    | some (_ :: _) => some mx.host
    | _ => none)
  if issues.isEmpty then
    { typ := "mx_cname_check", status := .pass,
      message := "Good. None of your MX records point to CNAME records." }
  else
    { typ := "mx_cname_check", status := .error,
      message := "ERROR: MX records should not point to CNAME (RFC 2181). Violating MX: " ++
        String.intercalate ", " issues }

/-- The duplicate-priorities warning entry (lines 1441-1446). -/
def mxDuplicatePriorityCheck : MxCheck :=
  { typ := "mx_duplicate_priorities", status := .warning,
    message := "WARNING: Duplicate MX priorities found. This may cause unpredictable mail routing." }

/-- Check 5 (lines 1438-1446): emitted only when
`len(priorities) != len(set(priorities))`, i.e. when some priority
repeats; there is no branch otherwise. -/
def mxDuplicatePriorityChecks (recs : List MxRec) : List MxCheck :=
  if (recs.map MxRec.priority).dedup.length ≠ (recs.map MxRec.priority).length
  then [mxDuplicatePriorityCheck]
  else []

/-- Python `int()` on one dotted-quad component; `none` models the
`ValueError` raised on non-decimal input. -/
def pythonInt (s : String) : Option Nat := s.toNat?

/-- The private-range test of check 6 (lines 1453-1459): `10.`, `127.`,
`172.16-31.`, `192.168.` prefixes.  The `172` arm evaluates
`int(parts[1])`, which raises on a non-numeric component; Python's
`or`/`and` short-circuit exactly as encoded here. -/
def mxIpPrivateTest (ip : String) : Except String Bool :=
  match pySplit '.' ip with
  | [a, b, _, _] =>
    if a = "10" then .ok true
    else if a = "127" then .ok true
    else if a = "172" then
      match pythonInt b with
      | some n => .ok (decide (16 ≤ n ∧ n ≤ 31))
      | none => .error ("invalid literal for int() with base 10: " ++ b)
    else .ok (decide (a = "192" ∧ b = "168"))
  | _ => .ok false

/-- The private-IP scan of check 6 (lines 1449-1460); an uncaught
`ValueError` aborts the whole MX checker into its generic fallback. -/
def mxPrivateIps (recs : List MxRec) : Except String (List String) :=
  recs.foldlM (fun acc mx =>
    mx.ips.foldlM (fun acc2 ipInfo =>
      match mxIpPrivateTest ipInfo.ip with
      | .error e => .error e
      | .ok true => .ok (acc2 ++ [mx.host ++ " [" ++ ipInfo.ip ++ "]"])
      | .ok false => .ok acc2) acc) []

/-- Check 6 verdict (lines 1462-1475). -/
def mxIpsPublicCheck (privateIps : List String) : MxCheck :=
  if privateIps.isEmpty then
    { typ := "mx_ips_public", status := .pass,
      message := "OK. All of your MX records appear to use public IPs." }
  else
    { typ := "mx_ips_public", status := .error,
      message := "ERROR: Some MX records use private IP addresses: " ++
        String.intercalate ", " privateIps }

/-- Check 7 (lines 1477-1497): an exchange whose name with the dots
removed is all digits (Python `replace('.', '').isdigit()`, true only
on a non-empty digit string) is flagged as an IP literal. -/
def mxIsNotIpCheck (recs : List MxRec) : MxCheck :=
  let bad := recs.filterMap (fun mx =>
    let digits := mx.host.toList.filter (fun c => c ≠ '.')
    if ¬ digits.isEmpty ∧ digits.all Char.isDigit then some mx.host
    else none)
  if bad.isEmpty then
    { typ := "mx_is_not_ip", status := .pass,
      message := "OK. All of your MX records are host names." }
  else
    { typ := "mx_is_not_ip", status := .error,
      message := "ERROR: MX records should use hostnames, not IP addresses: " ++
        String.intercalate ", " bad }

/-- Check 8 (lines 1499-1506): hardcoded pass in the source. -/
def mxDifferentRecordsCheck : MxCheck :=
  { typ := "different_mx_records", status := .pass,
    message := "Good. Looks like all your nameservers have the same set of MX records." }

/-- Check 10 (lines 1510-1527): the comparison loop discards its
finding, so the emitted sub-check is a hardcoded pass. -/
def mxMismatchedACheck : MxCheck :=
  { typ := "mismatched_mx_a", status := .pass,
    message := "OK. I did not detect differing IPs for your MX records." }

/-- Check 11 (lines 1529-1548): IPs served by more than one MX. -/
def mxDuplicateIpCheck (recs : List MxRec) : MxCheck :=
  let allIps := recs.flatMap (fun mx => mx.ips.map MxIp.ip)
  let dups := allIps.dedup.filter (fun ip => allIps.count ip > 1)
  if dups.isEmpty then
    { typ := "duplicate_mx_a", status := .pass,
      message := "OK. I have not found duplicate IP(s) for your MX records. This is a good thing." }
  else
    { typ := "duplicate_mx_a", status := .warning,
      message := "WARNING: Multiple MX records share the same IP(s): " ++
        String.intercalate ", " dups }

/-- Check 12 (lines 1550-1570): PTR listing, emitted only when at least
one MX IP exists.  `ptrOf` is the first PTR name, or `none` on any
exception. -/
def mxReverseChecks (ptrOf : String → Option String)
    (recs : List MxRec) : List MxCheck :=
  let ptrResults := recs.flatMap (fun mx => mx.ips.map (fun ipInfo =>
    match ptrOf ipInfo.ip with
    | some h => ipInfo.ip ++ " -> " ++ h
    | none => ipInfo.ip ++ " -> (no PTR)"))
  if ptrResults.isEmpty then []
  else [{ typ := "reverse_mx_a", status := .pass,
          message := "Your reverse (PTR) record:" }]

/-- The checks list in source order (checks 1-12; 3, 5 and 12 may be
absent as in the source). -/
def assembleMxChecks (recs : List MxRec)
    (cnameOf : String → Option (List String)) (ptrOf : String → Option String)
    (privateIps : List String) : List MxCheck :=
  [mxRecordsCheck, mxNameValidityCheck recs] ++
  mxCountChecks recs ++
  [mxCnameCheck cnameOf recs] ++
  mxDuplicatePriorityChecks recs ++
  [mxIpsPublicCheck privateIps, mxIsNotIpCheck recs,
   mxDifferentRecordsCheck, mxMismatchedACheck, mxDuplicateIpCheck recs] ++
  mxReverseChecks ptrOf recs

/-- The MX checker's result.  `count` is absent in the generic
exception fallback (lines 1596-1607), hence the `Option`. -/
structure MxResult where
  status : Status
  records : List MxRec
  checks : List MxCheck
  count : Option Nat
deriving DecidableEq, Repr

/-- The generic exception fallback of `_check_mx_records`
(lines 1596-1607). -/
def mxErrorResult (msg : String) : MxResult :=
  { status := .error, records := [],
    checks := [{ typ := "mx_records", status := .error,
                 message := "Failed to query MX records: " ++ msg }],
    count := none }

/-- The overall-status reduction (lines 1572-1575): error if any
sub-check errs, else warning if any warns, else pass. -/
def mxOverall (checks : List MxCheck) : Status :=
  if checks.any (fun c => c.status = .error) then Status.error
  else if checks.any (fun c => c.status = .warning) then Status.warning
  else Status.pass

/-- The successful-answer path of `_check_mx_records`: build and sort
the records (lines 1322-1357), run the private-IP scan (whose
`ValueError` aborts into the generic fallback), assemble the
sub-checks and reduce the overall status. -/
def checkMxOk (ans : List (String × Nat))
    (aOf aaaaOf cnameOf : String → Option (List String))
    (ptrOf : String → Option String) : MxResult :=
  match mxPrivateIps (sortMxRecords (ans.map (buildMxRecord aOf aaaaOf))) with
  | .error e => mxErrorResult e
  | .ok privateIps =>
    { status := mxOverall (assembleMxChecks
        (sortMxRecords (ans.map (buildMxRecord aOf aaaaOf)))
        cnameOf ptrOf privateIps),
      records := sortMxRecords (ans.map (buildMxRecord aOf aaaaOf)),
      checks := assembleMxChecks
        (sortMxRecords (ans.map (buildMxRecord aOf aaaaOf)))
        cnameOf ptrOf privateIps,
      count := some (sortMxRecords (ans.map (buildMxRecord aOf aaaaOf))).length }

/-- `_check_mx_records` (lines 1315-1607): `NXDOMAIN`/`NoAnswer`
yields the info result, any other exception the error fallback, and a
successful answer the full evaluation `checkMxOk`. -/
def check_mx_records (answers : Fetch (List (String × Nat)))
    (aOf aaaaOf cnameOf : String → Option (List String))
    (ptrOf : String → Option String) : MxResult :=
  match answers with
  | .noAnswer =>
    { status := .info, records := [],
      checks := [{ typ := "mx_records", status := .info,
                   message := "No MX records found - email not configured for this domain." }],
      count := some 0 }
  | .fail e => mxErrorResult e
  | .ok ans => checkMxOk ans aOf aaaaOf cnameOf ptrOf

/-! ### C8: MX records sorted, duplicate priorities warned, no dedup -/

/-- Dedup length differs from the length exactly when some element
repeats. -/
lemma dedup_length_ne_iff_not_nodup (l : List Nat) :
    l.dedup.length ≠ l.length ↔ ¬ l.Nodup := by
  constructor
  · intro h hnd
    exact h (by rw [hnd.dedup])
  · intro hnd h
    exact hnd (List.dedup_eq_self.mp (l.dedup_sublist.eq_of_length h))

/-- C8 (confirmed): for every MX check result the records list is
sorted by ascending priority; and whenever two records share a
priority, the checks list contains the warning sub-check
`mx_duplicate_priorities` while the records list is still a
permutation of the full fetched set (no record removed). -/
theorem mx_records_sorted_and_dup_priorities_warned :
    (∀ (answers : Fetch (List (String × Nat)))
      (aOf aaaaOf cnameOf : String → Option (List String))
      (ptrOf : String → Option String),
      List.Sorted mxLe
        (check_mx_records answers aOf aaaaOf cnameOf ptrOf).records) ∧
    (∀ (ans : List (String × Nat))
      (aOf aaaaOf cnameOf : String → Option (List String))
      (ptrOf : String → Option String),
      ¬ ((check_mx_records (Fetch.ok ans) aOf aaaaOf cnameOf
          ptrOf).records.map MxRec.priority).Nodup →
      (check_mx_records (Fetch.ok ans) aOf aaaaOf cnameOf
          ptrOf).records.Perm (ans.map (buildMxRecord aOf aaaaOf)) ∧
      mxDuplicatePriorityCheck ∈
        (check_mx_records (Fetch.ok ans) aOf aaaaOf cnameOf ptrOf).checks) := by
  constructor
  · intro answers aOf aaaaOf cnameOf ptrOf
    cases answers with
    | noAnswer => simp [check_mx_records]
    | fail e => simp [check_mx_records, mxErrorResult]
    | ok ans =>
      show List.Sorted mxLe (checkMxOk ans aOf aaaaOf cnameOf ptrOf).records
      unfold checkMxOk
      cases h : mxPrivateIps (sortMxRecords (ans.map (buildMxRecord aOf aaaaOf))) with
      | error e => simp [mxErrorResult]
      | ok privateIps =>
        simpa [sortMxRecords] using
          List.sorted_insertionSort mxLe (ans.map (buildMxRecord aOf aaaaOf))
  · intro ans aOf aaaaOf cnameOf ptrOf hdup
    have heq : check_mx_records (Fetch.ok ans) aOf aaaaOf cnameOf ptrOf
        = checkMxOk ans aOf aaaaOf cnameOf ptrOf := rfl
    rw [heq] at hdup ⊢
    unfold checkMxOk at hdup ⊢
    cases h : mxPrivateIps (sortMxRecords (ans.map (buildMxRecord aOf aaaaOf))) with
    | error e =>
      rw [h] at hdup
      simp [mxErrorResult] at hdup
    | ok privateIps =>
      rw [h] at hdup
      simp only at hdup ⊢
      constructor
      · simpa [sortMxRecords] using
          List.perm_insertionSort mxLe (ans.map (buildMxRecord aOf aaaaOf))
      · have hcond : ((sortMxRecords (ans.map (buildMxRecord aOf aaaaOf))).map
            MxRec.priority).dedup.length ≠
            ((sortMxRecords (ans.map (buildMxRecord aOf aaaaOf))).map
              MxRec.priority).length :=
          (dedup_length_ne_iff_not_nodup _).mpr hdup
        have hmem : mxDuplicatePriorityCheck ∈ mxDuplicatePriorityChecks
            (sortMxRecords (ans.map (buildMxRecord aOf aaaaOf))) := by
          unfold mxDuplicatePriorityChecks
          rw [if_pos hcond]
          simp
        show mxDuplicatePriorityCheck ∈ assembleMxChecks _ _ _ _
        unfold assembleMxChecks
        exact List.mem_append_left _ (List.mem_append_left _
          (List.mem_append_right _ hmem))

/-- Witness for C8 on a two-record MX set sharing priority 10. -/
theorem mx_records_sorted_and_dup_priorities_warned_witness :
    List.Sorted mxLe
      (check_mx_records
        (Fetch.ok [("mail1.example.net", 10), ("mail2.example.net", 10)])
        (fun _ => none) (fun _ => none) (fun _ => none)
        (fun _ => none)).records ∧
    (check_mx_records
        (Fetch.ok [("mail1.example.net", 10), ("mail2.example.net", 10)])
        (fun _ => none) (fun _ => none) (fun _ => none)
        (fun _ => none)).records.Perm
      ([("mail1.example.net", 10), ("mail2.example.net", 10)].map
        (buildMxRecord (fun _ => none) (fun _ => none))) ∧
    mxDuplicatePriorityCheck ∈
      (check_mx_records
        (Fetch.ok [("mail1.example.net", 10), ("mail2.example.net", 10)])
        (fun _ => none) (fun _ => none) (fun _ => none)
        (fun _ => none)).checks := by
  refine ⟨mx_records_sorted_and_dup_priorities_warned.1 _ _ _ _ _, ?_, ?_⟩
  · exact (mx_records_sorted_and_dup_priorities_warned.2
      [("mail1.example.net", 10), ("mail2.example.net", 10)]
      (fun _ => none) (fun _ => none) (fun _ => none) (fun _ => none)
      (by decide)).1
  · exact (mx_records_sorted_and_dup_priorities_warned.2
      [("mail1.example.net", 10), ("mail2.example.net", 10)]
      (fun _ => none) (fun _ => none) (fun _ => none) (fun _ => none)
      (by decide)).2

/-! ### Parent delegation probe (`_get_parent_delegation`, lines 472-532)

The method appears twice in the class with identical bodies; the later
definition (lines 472-532) is the one in effect.  It extracts the TLD,
looks it up in the registry, picks ONE registry nameserver via
`random.choice`, sends a single UDP NS query to its IPv4 address, and
reads the authority section.  Every failure lands in a `return` with
`status: error` and `records: []`; there is no second query. -/

/-- One registry nameserver entry (`nserver` items of the TLD data). -/
structure TldNs where
  hostname : String
  ipv4 : String
deriving DecidableEq, Repr

/-- A TLD registry entry; `nserver := none` models an entry without
the `'nserver'` key (line 389). -/
structure TldInfo where
  nserver : Option (List TldNs)
deriving DecidableEq, Repr

/-- A directed UDP response: the authority section as RRsets of
(target hostnames, ttl). -/
structure DnsResponse where
  authority : List (List String × Nat)
deriving DecidableEq, Repr

/-- The probe's environment: the TLD registry, the `random.choice`
pick (`none` models the `IndexError` on an empty sequence), the
directed UDP query (exceptions as `Except.error`), and the recursive
A lookup used for glue. -/
structure PdEnv where
  tld_data : List (String × TldInfo)
  choose : List TldNs → Option TldNs
  udp : String → Except String DnsResponse
  aLookup : String → Except String (List String)

/-- Registry dict lookup. -/
def lookupTld : List (String × TldInfo) → String → Option TldInfo
  | [], _ => none
  | p :: rest, k => if p.1 = k then some p.2 else lookupTld rest k

/-- The probe's result dict. -/
structure PdResult where
  status : Status
  errorMsg : Option String
  records : List String
  nameserver_ips : List (String × List String)
  tld_server_used : Option String
  tld_server_ip : Option String
  ttl : Option Nat
deriving DecidableEq, Repr

/-- The error shape every failure path returns: `status: error` with
the reason and an empty records list (lines 386, 390, 429-435,
526-532). -/
def pdErrorResult (msg : String) : PdResult :=
  { status := .error, errorMsg := some msg, records := [],
    nameserver_ips := [], tld_server_used := none, tld_server_ip := none,
    ttl := none }

/-- `_get_parent_delegation` (lines 472-532): take the last label of
the domain as the TLD (`domain.split('.')[-1]`), look it up, choose
one registry server, query it once by UDP, and collect the
authority-section targets with their glue A records; the surrounding
`try` turns any exception into the error shape. -/
def get_parent_delegation (domain : String) (env : PdEnv) : PdResult :=
  match lookupTld env.tld_data ((pySplit '.' domain).getLastD "") with
  | none => pdErrorResult ("TLD " ++ (pySplit '.' domain).getLastD "" ++
      " not found in database")
  | some info =>
    match info.nserver with
    | none => pdErrorResult ("No nameservers found for TLD " ++
        (pySplit '.' domain).getLastD "")
    | some nss =>
      match env.choose nss with
      | none => pdErrorResult "Cannot choose from an empty sequence"
      | some srv =>
        match env.udp srv.ipv4 with
        | .error e => pdErrorResult e
        | .ok resp =>
          { status :=
              if (resp.authority.flatMap (fun a => a.1)).isEmpty
              then Status.error else Status.pass,
            errorMsg := none,
            records := resp.authority.flatMap (fun a => a.1),
            nameserver_ips := (resp.authority.flatMap (fun a => a.1)).map
              (fun ns => (ns,
                match env.aLookup ns with
                | .ok l => l
                | .error _ => [])),
            tld_server_used := some srv.hostname,
            tld_server_ip := some srv.ipv4,
            ttl := (resp.authority.head?).map (fun a => a.2) }

/-! ### C9: failure behaviour of the parent delegation probe -/

/-- The first registry server for `com` used in the concrete probes. -/
def comServerA : TldNs := { hostname := "a.gtld-servers.net", ipv4 := "192.0.2.1" }

/-- The second registry server for `com` used in the concrete probes. -/
def comServerB : TldNs := { hostname := "b.gtld-servers.net", ipv4 := "192.0.2.2" }

/-- A `com` registry entry holding both servers. -/
def comTldInfo : TldInfo := { nserver := some [comServerA, comServerB] }

/-- Environment in which the first (chosen) server times out while
the second would answer with a non-empty delegation. -/
def fallbackEnv : PdEnv :=
  { tld_data := [("com", comTldInfo)],
    choose := List.head?,
    udp := fun ip =>
      if ip = "192.0.2.2" then
        Except.ok { authority := [(["ns1.example.com"], 172800)] }
      else Except.error "The DNS operation timed out.",
    aLookup := fun _ => Except.ok ["198.51.100.7"] }

/-- Counterexample to C9: the registry holds a second `com` server
that would answer with a non-empty delegation, yet when the single
chosen server times out the probe returns `status: error` with empty
records — no fallback to the other server is attempted. -/
theorem parent_delegation_no_fallback_counterexample :
    (get_parent_delegation "example.com" fallbackEnv).status = Status.error ∧
    (get_parent_delegation "example.com" fallbackEnv).records = [] ∧
    ((fallbackEnv.udp "192.0.2.2").toOption.map
      (fun r => r.authority.flatMap (fun a => a.1)))
      = some ["ns1.example.com"] := by
  refine ⟨by decide, by decide, by decide⟩

/-- C9 (corrected): when the TLD is unknown to the registry, or the
registry entry lacks nameservers, or the single randomly chosen TLD
server's query raises (e.g. times out), the probe returns a result
with status error and an empty NS records list, without attempting any
other registry server; it never raises. -/
theorem parent_delegation_fails_closed (domain : String) (env : PdEnv)
    (h : lookupTld env.tld_data ((pySplit '.' domain).getLastD "") = none ∨
      (∃ info, lookupTld env.tld_data ((pySplit '.' domain).getLastD "")
          = some info ∧ info.nserver = none) ∨
      (∃ info nss srv e,
        lookupTld env.tld_data ((pySplit '.' domain).getLastD "") = some info ∧
        info.nserver = some nss ∧ env.choose nss = some srv ∧
        env.udp srv.ipv4 = Except.error e)) :
    (get_parent_delegation domain env).status = Status.error ∧
    (get_parent_delegation domain env).records = [] := by
  rcases h with h1 | ⟨info, h1, h2⟩ | ⟨info, nss, srv, e, h1, h2, h3, h4⟩
  · unfold get_parent_delegation
    rw [h1]
    exact ⟨rfl, rfl⟩
  · unfold get_parent_delegation
    rw [h1]
    simp [h2, pdErrorResult]
  · unfold get_parent_delegation
    rw [h1]
    simp [h2, h3, h4, pdErrorResult]

/-- Environment in which every UDP query times out. -/
def timeoutEnv : PdEnv :=
  { tld_data := [("com", comTldInfo)],
    choose := List.head?,
    udp := fun _ => Except.error "The DNS operation timed out.",
    aLookup := fun _ => Except.ok ["198.51.100.7"] }

/-- Witness for C9's corrected statement: the chosen (first) registry
server times out. -/
theorem parent_delegation_fails_closed_witness :
    (get_parent_delegation "example.com" timeoutEnv).status = Status.error ∧
    (get_parent_delegation "example.com" timeoutEnv).records = [] :=
  parent_delegation_fails_closed "example.com" timeoutEnv
    (Or.inr (Or.inr ⟨comTldInfo, [comServerA, comServerB], comServerA,
      "The DNS operation timed out.", by decide, rfl, rfl, rfl⟩))

/-! ### AAAA checker (`_check_aaaa_records`, lines 1256-1313)

The per-address private/reserved/loopback classification calls the
`ipaddress` library; it is abstracted as `ipv6Issue`, returning the
issue string a given address produces, if any. -/

/-- Result of `_check_aaaa_for_host` (lines 1274-1313). -/
structure AaaaHostResult where
  status : Status
  records : List String
  issues : List String
  count : Nat
deriving DecidableEq, Repr

/-- `_check_aaaa_for_host`: a successful answer is always `pass`
(private-address issues are recorded but do not change the status);
`NXDOMAIN`/`NoAnswer` is `info`; any other exception is `warning`. -/
def check_aaaa_for_host (ipv6Issue : String → Option String)
    (hostname : String) (res : Fetch (List String)) : AaaaHostResult :=
  match res with
  | .ok addrs =>
    { status := .pass, records := addrs,
      issues := addrs.filterMap ipv6Issue, count := addrs.length }
  | .noAnswer =>
    { status := .info, records := [], issues := [], count := 0 }
  | .fail msg =>
    { status := .warning, records := [],
      issues := ["Failed to query AAAA records for " ++ hostname ++ ": " ++
        msg], count := 0 }

/-- Result of `_check_aaaa_records`: the root and www sub-results
under `records`, plus the top-level status and issues. -/
structure AaaaResult where
  status : Status
  root : AaaaHostResult
  www : AaaaHostResult
  issues : List String
deriving DecidableEq, Repr

/-- `_check_aaaa_records` (lines 1256-1272): check the root domain and
`www.<domain>`; IPv6 being optional, the returned status is the
literal `'pass'` with no issues, whatever the sub-results. -/
def check_aaaa_records (ipv6Issue : String → Option String)
    (domain : String) (rootRes wwwRes : Fetch (List String)) : AaaaResult :=
  { status := .pass,
    root := check_aaaa_for_host ipv6Issue domain rootRes,
    www := check_aaaa_for_host ipv6Issue ("www." ++ domain) wwwRes,
    issues := [] }

/-! ### C10: the AAAA checker's status is always pass -/

/-- C10 (confirmed): the AAAA checker's top-level status is `pass` for
every possible outcome of the root and www queries; only the nested
per-host results vary, and those never even reach `error` (their
statuses are `pass`, `info` or `warning`). -/
theorem aaaa_status_always_pass :
    (∀ (ipv6Issue : String → Option String) (domain : String)
      (rootRes wwwRes : Fetch (List String)),
      (check_aaaa_records ipv6Issue domain rootRes wwwRes).status
        = Status.pass) ∧
    (∀ (ipv6Issue : String → Option String) (hostname : String)
      (res : Fetch (List String)),
      (check_aaaa_for_host ipv6Issue hostname res).status ≠ Status.error) := by
  constructor
  · intro ipv6Issue domain rootRes wwwRes
    rfl
  · intro ipv6Issue hostname res
    cases res <;> simp [check_aaaa_for_host]

end DNSBunch
